import Mathlib

/-!
Shallow embedding of `src/main.py` of deal-sniper.

The regex `([A-Za-z\s]+) to ([A-Za-z,\s]+).*?\$(\d+)` used by `parse_deal`
is embedded as a small backtracking matcher (`matchItems`) over a fixed
item list, with Python `re.search` leftmost semantics (`reSearch`):
greedy repetitions try the longest length first, the lazy `.*?` tries the
shortest first, and search tries start positions left to right.
Character classes are the ASCII parts of `[A-Za-z]`, `\s`, `\d` and `.`
(which excludes the newline).  Prices and timestamps (Python floats) are
modelled as rationals; fallible fetches as `Except`.
-/

/-- ASCII whitespace, the ASCII part of Python's `\s` class. -/
def isPySpace (c : Char) : Bool :=
  c = ' ' || c = '\t' || c = '\n' || c = '\r' || c = '\x0b' || c = '\x0c'

/-- `[A-Za-z]`. -/
def isAsciiLetter (c : Char) : Bool :=
  ('A' ≤ c && c ≤ 'Z') || ('a' ≤ c && c ≤ 'z')

/-- The class `[A-Za-z\s]` of capture group 1. -/
def letterSpace (c : Char) : Bool := isAsciiLetter c || isPySpace c

/-- The class `[A-Za-z,\s]` of capture group 2. -/
def letterCommaSpace (c : Char) : Bool := isAsciiLetter c || c = ',' || isPySpace c

/-- `\d` (ASCII digits). -/
def isPyDigit (c : Char) : Bool := '0' ≤ c && c ≤ '9'

/-- The class of `.`: any character but the newline. -/
def notNL (c : Char) : Bool := c != '\n'

/-- One item of the embedded regular expression. -/
inductive RItem where
  | lit (c : Char)
  | plusGreedy (p : Char → Bool)
  | starLazy (p : Char → Bool)

/-- `descRange n = [n, n-1, ..., 1]`: the order in which a greedy
repetition tries how many characters to consume. -/
def descRange : Nat → List Nat
  | 0 => []
  | n + 1 => (n + 1) :: descRange n

/-- Backtracking matcher for a list of items against the front of `s`
(the tail of `s` may be left unconsumed).  Returns, on success, the list
of characters consumed by each item. -/
def matchItems : List RItem → List Char → Option (List (List Char))
  | [], _ => some []
  | .lit c :: rest, s =>
    match s with
    | [] => none
    | a :: s' =>
      if a = c then (matchItems rest s').map (fun gs => [a] :: gs) else none
  | .plusGreedy p :: rest, s =>
    (descRange (s.takeWhile p).length).findSome? fun k =>
      (matchItems rest (s.drop k)).map (fun gs => s.take k :: gs)
  | .starLazy p :: rest, s =>
    (List.range ((s.takeWhile p).length + 1)).findSome? fun k =>
      (matchItems rest (s.drop k)).map (fun gs => s.take k :: gs)

/-- A sequence of literal items. -/
def litsOf (l : List Char) : List RItem := l.map .lit

/-- `re.search` semantics: try each start position from the left. -/
def reSearch (pat : List RItem) : List Char → Option (List (List Char))
  | [] => matchItems pat []
  | a :: t => (matchItems pat (a :: t)).orElse fun _ => reSearch pat t

/-- The literal ` to ` between the two capture groups. -/
def toLit : List Char := [' ', 't', 'o', ' ']

/-- Items after group 1 and the literal ` to `:
`([A-Za-z,\s]+).*?\$(\d+)`. -/
def tailPat : List RItem :=
  [.plusGreedy letterCommaSpace, .starLazy notNL, .lit '$', .plusGreedy isPyDigit]

/-- The whole pattern `([A-Za-z\s]+) to ([A-Za-z,\s]+).*?\$(\d+)`. -/
def dealPattern : List RItem := .plusGreedy letterSpace :: (litsOf toLit ++ tailPat)

/-- Python `str.strip()` on a character list (ASCII whitespace). -/
def pyStripList (l : List Char) : List Char :=
  ((l.dropWhile isPySpace).reverse.dropWhile isPySpace).reverse

/-- Python `str.strip()`. -/
def pyStrip (s : String) : String := String.mk (pyStripList s.data)

/-- Python `str.lower()` (ASCII). -/
def pyLowerChar (c : Char) : Char :=
  if 'A' ≤ c && c ≤ 'Z' then Char.ofNat (c.toNat + 32) else c

/-- Python `str.lower()`. -/
def pyLower (s : String) : String := String.mk (s.data.map pyLowerChar)

/-- Python substring test `needle in hay` on character lists. -/
def listContains (hay needle : List Char) : Bool :=
  (List.range (hay.length + 1)).any fun i =>
    (hay.drop i).take needle.length == needle

/-- Python substring test `needle in hay`. -/
def strContains (hay needle : String) : Bool := listContains hay.data needle.data

/-- Numeric value of a digit string, as `float(...)` computes it on `\d+`. -/
def digitsVal (l : List Char) : Nat :=
  l.foldl (fun a c => a * 10 + (c.toNat - '0'.toNat)) 0

/-- `TravelDeal` pydantic model of `src/main.py`. -/
structure TravelDeal where
  title : String
  link : String
  price : Option ℚ := none
  currency : Option String := none
  departure : Option String := none
  destination : Option String := none
deriving DecidableEq, Repr

/-- `UserPreferences` pydantic model of `src/main.py`. -/
structure UserPreferences where
  departure_airports : List String
  destination_keywords : List String
  max_price : Option ℚ := none
  currency : Option String := some "USD"
deriving DecidableEq, Repr

/-- `parse_deal(title, link)`: run the regex search on the title; on a
match, build the deal from the stripped groups; otherwise `None`. -/
def parse_deal (title link : String) : Option TravelDeal :=
  match reSearch dealPattern title.data with
  | some [g1, _, _, _, _, g2, _, _, g3] =>
    some { title := title, link := link,
           price := some ((digitsVal g3 : ℕ) : ℚ), currency := some "USD",
           departure := some (pyStrip (String.mk g1)),
           destination := some (pyStrip (String.mk g2)) }
  | _ => none

/-- Python truthiness of an optional string (`None` and `""` are falsy). -/
def truthyS : Option String → Bool
  | none => false
  | some s => !(s == "")

/-- Python truthiness of an optional number (`None` and `0` are falsy). -/
def truthyQ : Option ℚ → Bool
  | none => false
  | some q => !(q == 0)

/-- `deal.departure and deal.departure not in prefs.departure_airports`. -/
def departureSkip (deal : TravelDeal) (prefs : UserPreferences) : Bool :=
  truthyS deal.departure &&
    !(prefs.departure_airports.contains (deal.departure.getD ""))

/-- `deal.destination and not any(kw.lower() in deal.destination.lower() ...)`. -/
def destinationSkip (deal : TravelDeal) (prefs : UserPreferences) : Bool :=
  truthyS deal.destination &&
    !(prefs.destination_keywords.any fun kw =>
        strContains (pyLower (deal.destination.getD "")) (pyLower kw))

/-- `prefs.max_price and deal.price and deal.price > prefs.max_price`. -/
def priceSkip (deal : TravelDeal) (prefs : UserPreferences) : Bool :=
  truthyQ prefs.max_price && truthyQ deal.price &&
    decide (prefs.max_price.getD 0 < deal.price.getD 0)

/-- `filter_deals`: keep the deals skipped by none of the three checks. -/
def filter_deals (deals : List TravelDeal) (prefs : UserPreferences) :
    List TravelDeal :=
  deals.filter fun deal =>
    !(departureSkip deal prefs) && !(destinationSkip deal prefs) &&
      !(priceSkip deal prefs)

/-- One per-source cache entry (`{"timestamp": ..., "data": ...}`). -/
structure CacheEntry where
  timestamp : ℚ
  data : List TravelDeal
deriving DecidableEq

/-- The module-level `cache` dictionary with its two fixed keys. -/
structure Cache where
  secret_flying : CacheEntry
  the_flight_deal : CacheEntry
deriving DecidableEq

/-- The initial cache value. -/
def cacheInit : Cache := ⟨⟨0, []⟩, ⟨0, []⟩⟩

/-- `CACHE_TTL = 300`. -/
def CACHE_TTL : ℚ := 300

/-- The per-entry loop of the scrape functions: parse each `(title, link)`
pair, dropping the ones `parse_deal` rejects. -/
def parseEntries (entries : List (String × String)) : List TravelDeal :=
  entries.filterMap fun e => parse_deal e.1 e.2

/-- `scrape_secret_flying`, with the current time, the fetch outcome and
the cache state made explicit.  Returns the deals and the new cache. -/
def scrape_secret_flying (now : ℚ) (fetch : Except String (List (String × String)))
    (c : Cache) : List TravelDeal × Cache :=
  if now - c.secret_flying.timestamp < CACHE_TTL then
    (c.secret_flying.data, c)
  else
    match fetch with
    | .error _ => ([], c)
    | .ok entries =>
      let deals := parseEntries entries
      (deals, { c with secret_flying := ⟨now, deals⟩ })

/-- `scrape_the_flight_deal`, embedded like `scrape_secret_flying`. -/
def scrape_the_flight_deal (now : ℚ) (fetch : Except String (List (String × String)))
    (c : Cache) : List TravelDeal × Cache :=
  if now - c.the_flight_deal.timestamp < CACHE_TTL then
    (c.the_flight_deal.data, c)
  else
    match fetch with
    | .error _ => ([], c)
    | .ok entries =>
      let deals := parseEntries entries
      (deals, { c with the_flight_deal := ⟨now, deals⟩ })

/-- The aggregation step of `find_deals`:
`scrape_secret_flying() + scrape_the_flight_deal()`. -/
def aggregate (now : ℚ) (fSF fTFD : Except String (List (String × String)))
    (c : Cache) : List TravelDeal × Cache :=
  let r1 := scrape_secret_flying now fSF c
  let r2 := scrape_the_flight_deal now fTFD r1.2
  (r1.1 ++ r2.1, r2.2)

/-- The `/find-deals` handler body: aggregate, short-circuit on an empty
list, else filter against the preferences. -/
def find_deals (now : ℚ) (fSF fTFD : Except String (List (String × String)))
    (c : Cache) (prefs : UserPreferences) : List TravelDeal × Cache :=
  let r := aggregate now fSF fTFD c
  if r.1.isEmpty then ([], r.2) else (filter_deals r.1 prefs, r.2)

/-- A sample deal shared by the two sample cache entries below. -/
def sampleDeal : TravelDeal := { title := "t", link := "l" }

/-- A cache state holding the same deal for both sources. -/
def sampleCache : Cache := ⟨⟨0, [sampleDeal]⟩, ⟨0, [sampleDeal]⟩⟩

/-- The characters of `sub` occur in `s` starting at index `i`. -/
def occursAt (s sub : List Char) (i : Nat) : Prop :=
  (s.drop i).take sub.length = sub

instance (s sub : List Char) (i : Nat) : Decidable (occursAt s sub i) := by
  unfold occursAt; infer_instance

/-- The shape `<A> to <B> ... $<N>` from the spec sentence, in the spec's
words: origin `A` of letters/spaces, destination `B` of letters/commas/
spaces, arbitrary middle text `mid` holding no dollar sign (so the
captured dollar sign is the first one following the destination), `N` the
integer digits right after it, `T` the rest of the title. -/
def dealShape (A B mid N T : List Char) : Prop :=
  A ≠ [] ∧ (∀ c ∈ A, letterSpace c = true) ∧
  B ≠ [] ∧ (∀ c ∈ B, letterCommaSpace c = true) ∧
  '$' ∉ mid ∧
  N ≠ [] ∧ (∀ c ∈ N, isPyDigit c = true) ∧
  (∀ c, T.head? = some c → isPyDigit c = false)

/-- Claim C1 as stated: for every title of the shape `<A> to <B> ... $<N>`
(any decomposition), `parse_deal` returns the deal built from that
decomposition: departure `A.strip()`, destination `B.strip()`, price `N`,
currency `"USD"`, title and link preserved. -/
def C1Claim : Prop :=
  ∀ (A B mid N T : List Char) (link : String), dealShape A B mid N T →
    parse_deal (String.mk (A ++ toLit ++ B ++ mid ++ '$' :: (N ++ T))) link =
      some { title := String.mk (A ++ toLit ++ B ++ mid ++ '$' :: (N ++ T)),
             link := link, price := some ((digitsVal N : ℕ) : ℚ),
             currency := some "USD",
             departure := some (pyStrip (String.mk A)),
             destination := some (pyStrip (String.mk B)) }

/-- Claim C2 as stated: a deal with a present departure passes the
departure check iff the departure is an exact member of
`prefs.departure_airports`; an absent departure always passes. -/
def C2Claim : Prop :=
  ∀ (deal : TravelDeal) (prefs : UserPreferences),
    (∀ dep, deal.departure = some dep →
      (departureSkip deal prefs = false ↔ dep ∈ prefs.departure_airports)) ∧
    (deal.departure = none → departureSkip deal prefs = false)

/-- Claim C5 as stated: a deal with a present destination passes the
destination check iff some keyword occurs as a case-insensitive substring
of the destination; an absent destination always passes. -/
def C5Claim : Prop :=
  ∀ (deal : TravelDeal) (prefs : UserPreferences),
    (∀ dest, deal.destination = some dest →
      (destinationSkip deal prefs = false ↔
        ∃ kw ∈ prefs.destination_keywords,
          strContains (pyLower dest) (pyLower kw) = true)) ∧
    (deal.destination = none → destinationSkip deal prefs = false)

/-! ### Equations of the matcher -/

theorem matchItems_nil (s : List Char) : matchItems [] s = some [] := rfl

theorem matchItems_lit_nil (c : Char) (rest : List RItem) :
    matchItems (.lit c :: rest) [] = none := rfl

theorem matchItems_lit_cons (c : Char) (rest : List RItem) (a : Char)
    (s : List Char) :
    matchItems (.lit c :: rest) (a :: s) =
      if a = c then (matchItems rest s).map (fun gs => [a] :: gs)
      else none := rfl

theorem matchItems_plus (p : Char → Bool) (rest : List RItem) (s : List Char) :
    matchItems (.plusGreedy p :: rest) s =
      (descRange (s.takeWhile p).length).findSome? (fun k =>
        (matchItems rest (s.drop k)).map (fun gs => s.take k :: gs)) := rfl

theorem matchItems_star (p : Char → Bool) (rest : List RItem) (s : List Char) :
    matchItems (.starLazy p :: rest) s =
      (List.range ((s.takeWhile p).length + 1)).findSome? (fun k =>
        (matchItems rest (s.drop k)).map (fun gs => s.take k :: gs)) := rfl

/-! ### List helpers -/

theorem takeWhile_append_all {α : Type} (p : α → Bool) :
    ∀ (xs ys : List α), (∀ c ∈ xs, p c = true) →
      (xs ++ ys).takeWhile p = xs ++ ys.takeWhile p
  | [], _, _ => rfl
  | x :: xs, ys, h => by
    have hx : p x = true := h x (by simp)
    simp only [List.cons_append, List.takeWhile_cons, hx, if_true]
    rw [takeWhile_append_all p xs ys (fun c hc => h c (by simp [hc]))]

theorem takeWhile_cons_neg {α : Type} (p : α → Bool) (y : α) (ys : List α)
    (h : p y = false) : (y :: ys).takeWhile p = [] := by
  simp [List.takeWhile_cons, h]

theorem takeWhile_all {α : Type} (p : α → Bool) (xs : List α)
    (h : ∀ c ∈ xs, p c = true) : xs.takeWhile p = xs := by
  have := takeWhile_append_all p xs [] h
  simpa using this

theorem takeWhile_length_le {α : Type} (p : α → Bool) :
    ∀ xs : List α, (xs.takeWhile p).length ≤ xs.length
  | [] => Nat.le_refl 0
  | x :: xs => by
    rw [List.takeWhile_cons]
    by_cases hx : p x = true
    · simpa [hx] using Nat.succ_le_succ (takeWhile_length_le p xs)
    · simp [hx]

theorem descRange_findSome?_high (f : Nat → Option (List (List Char)))
    (a : Nat) (r : List (List Char)) :
    ∀ n, 0 < a → a ≤ n → (∀ k, a < k → f k = none) → f a = some r →
      (descRange n).findSome? f = some r
  | 0, ha, han, _, _ => absurd (Nat.lt_of_lt_of_le ha han) (Nat.lt_irrefl 0)
  | n + 1, ha, han, hh, hfa => by
    rw [descRange, List.findSome?_cons]
    rcases Nat.lt_or_ge a (n + 1) with h | h
    · rw [hh _ h]
      exact descRange_findSome?_high f a r n ha (Nat.lt_succ_iff.mp h) hh hfa
    · have : a = n + 1 := Nat.le_antisymm han h
      rw [← this, hfa]

theorem descRange_findSome?_head (f : Nat → Option (List (List Char)))
    (n : Nat) (r : List (List Char)) (hn : 0 < n) (h : f n = some r) :
    (descRange n).findSome? f = some r := by
  cases n with
  | zero => exact absurd hn (Nat.lt_irrefl 0)
  | succ m => rw [descRange, List.findSome?_cons, h]

theorem range_findSome?_zero (f : Nat → Option (List (List Char)))
    (n : Nat) (r : List (List Char)) (h : f 0 = some r) :
    (List.range (n + 1)).findSome? f = some r := by
  rw [List.range_succ_eq_map, List.findSome?_cons, h]

/-! ### Matching literal runs -/

theorem litsOf_cons (c : Char) (l : List Char) :
    litsOf (c :: l) = .lit c :: litsOf l := rfl

theorem litsOf_some : ∀ (l : List Char) (rest : List RItem) (s : List Char),
    matchItems (litsOf l ++ rest) (l ++ s) =
      (matchItems rest s).map (fun gs => (l.map fun c => [c]) ++ gs)
  | [], rest, s => by
    cases h : matchItems rest s <;> simp [litsOf, h]
  | c :: l, rest, s => by
    have ih := litsOf_some l rest s
    simp only [litsOf_cons, List.cons_append, matchItems_lit_cons, if_pos rfl]
    rw [ih, Option.map_map]
    cases matchItems rest s <;> simp

theorem litsOf_none : ∀ (l : List Char) (rest : List RItem) (s : List Char),
    s.take l.length ≠ l → matchItems (litsOf l ++ rest) s = none
  | [], _, s, h => absurd (List.take_zero s) h
  | c :: l, rest, [], _ => rfl
  | c :: l, rest, a :: s, h => by
    simp only [litsOf_cons, List.cons_append, matchItems_lit_cons]
    by_cases hac : a = c
    · subst hac
      rw [litsOf_none l rest s fun ht => h (by simp [List.take_succ_cons, ht])]
      simp
    · simp [hac]

/-! ### The regex on titles of the canonical deal shape -/

theorem matchTail (B N T : List Char) (hB : B ≠ [])
    (hBc : ∀ c ∈ B, letterCommaSpace c = true)
    (hN : N ≠ []) (hNc : ∀ c ∈ N, isPyDigit c = true)
    (hT : ∀ c, T.head? = some c → isPyDigit c = false) :
    matchItems tailPat (B ++ '$' :: (N ++ T)) = some [B, [], ['$'], N] := by
  have hrun4 : (N ++ T).takeWhile isPyDigit = N := by
    cases T with
    | nil => simpa using takeWhile_all isPyDigit N hNc
    | cons c T' =>
      rw [takeWhile_append_all isPyDigit N _ hNc,
        takeWhile_cons_neg _ _ _ (hT c rfl), List.append_nil]
  have h3 : matchItems [.plusGreedy isPyDigit] (N ++ T) = some [N] := by
    rw [matchItems_plus, hrun4]
    refine descRange_findSome?_head _ _ _ (List.length_pos.mpr hN) ?_
    rw [matchItems_nil, List.take_left]
    rfl
  have h2 : matchItems [.lit '$', .plusGreedy isPyDigit] ('$' :: (N ++ T)) =
      some [['$'], N] := by
    rw [matchItems_lit_cons, if_pos rfl, h3]
    rfl
  have h1 : matchItems [.starLazy notNL, .lit '$', .plusGreedy isPyDigit]
      ('$' :: (N ++ T)) = some [[], ['$'], N] := by
    rw [matchItems_star]
    refine range_findSome?_zero _ _ _ ?_
    rw [List.drop_zero, h2, List.take_zero]
    rfl
  have hrun2 : (B ++ '$' :: (N ++ T)).takeWhile letterCommaSpace = B := by
    rw [takeWhile_append_all _ _ _ hBc,
      takeWhile_cons_neg _ _ _ (by decide), List.append_nil]
  unfold tailPat
  rw [matchItems_plus, hrun2]
  refine descRange_findSome?_head _ _ _ (List.length_pos.mpr hB) ?_
  rw [List.drop_left, List.take_left, h1]
  rfl

theorem matchDeal (A B N T : List Char) (hA : A ≠ [])
    (hAc : ∀ c ∈ A, letterSpace c = true)
    (hB : B ≠ []) (hBc : ∀ c ∈ B, letterCommaSpace c = true)
    (hN : N ≠ []) (hNc : ∀ c ∈ N, isPyDigit c = true)
    (hT : ∀ c, T.head? = some c → isPyDigit c = false)
    (huniq : ∀ i < (A ++ (toLit ++ (B ++ '$' :: (N ++ T)))).length,
      occursAt (A ++ (toLit ++ (B ++ '$' :: (N ++ T)))) toLit i → i = A.length) :
    matchItems dealPattern (A ++ (toLit ++ (B ++ '$' :: (N ++ T)))) =
      some [A, [' '], ['t'], ['o'], [' '], B, [], ['$'], N] := by
  unfold dealPattern
  rw [matchItems_plus]
  refine descRange_findSome?_high _ A.length _
    ((A ++ (toLit ++ (B ++ '$' :: (N ++ T)))).takeWhile letterSpace).length
    (List.length_pos.mpr hA) ?_ ?_ ?_
  · rw [takeWhile_append_all _ _ _ hAc, List.length_append]
    exact Nat.le_add_right A.length _
  · intro k hk
    rw [litsOf_none toLit tailPat _ ?_]
    · rfl
    · intro heq
      by_cases hlen : k < (A ++ (toLit ++ (B ++ '$' :: (N ++ T)))).length
      · exact absurd (huniq k hlen heq) (Nat.ne_of_gt hk)
      · rw [List.drop_eq_nil_of_le (Nat.le_of_not_lt hlen)] at heq
        exact absurd heq.symm (by decide)
  · rw [List.drop_left, List.take_left, litsOf_some,
      matchTail B N T hB hBc hN hNc hT]
    rfl

theorem reSearch_of_matchAt0 (pat : List RItem) (s : List Char)
    (gs : List (List Char)) (h : matchItems pat s = some gs) :
    reSearch pat s = some gs := by
  cases s with
  | nil => exact h
  | cons a t =>
    show (matchItems pat (a :: t)).orElse _ = some gs
    rw [h]
    rfl

/-- C1 (amended): for every title of the form `<A> to <B>$<N><T>` — origin
`A` nonempty letters/spaces, destination `B` nonempty letters/commas/
spaces immediately followed by the dollar sign, `N` nonempty digits not
followed by a further digit, and the literal ` to ` occurring in the title
only right after `A` — `parse_deal` returns a deal with departure
`A.strip()`, destination `B.strip()`, price `N`, currency `"USD"`, and the
input title and link. -/
theorem C1_parse_canonical (A B N T : List Char) (link : String)
    (hA : A ≠ []) (hAc : ∀ c ∈ A, letterSpace c = true)
    (hB : B ≠ []) (hBc : ∀ c ∈ B, letterCommaSpace c = true)
    (hN : N ≠ []) (hNc : ∀ c ∈ N, isPyDigit c = true)
    (hT : ∀ c, T.head? = some c → isPyDigit c = false)
    (huniq : ∀ i < (A ++ (toLit ++ (B ++ '$' :: (N ++ T)))).length,
      occursAt (A ++ (toLit ++ (B ++ '$' :: (N ++ T)))) toLit i → i = A.length) :
    parse_deal (String.mk (A ++ (toLit ++ (B ++ '$' :: (N ++ T))))) link =
      some { title := String.mk (A ++ (toLit ++ (B ++ '$' :: (N ++ T)))),
             link := link, price := some ((digitsVal N : ℕ) : ℚ),
             currency := some "USD",
             departure := some (pyStrip (String.mk A)),
             destination := some (pyStrip (String.mk B)) } := by
  unfold parse_deal
  rw [show (String.mk (A ++ (toLit ++ (B ++ '$' :: (N ++ T))))).data =
      A ++ (toLit ++ (B ++ '$' :: (N ++ T))) from rfl,
    reSearch_of_matchAt0 _ _ _
      (matchDeal A B N T hA hAc hB hBc hN hNc hT huniq)]

/-- Witness for C1 (amended) at the title `NYC to Paris$200`. -/
theorem C1_parse_canonical_witness :
    parse_deal (String.mk
      (['N', 'Y', 'C'] ++ (toLit ++ (['P', 'a', 'r', 'i', 's'] ++ '$' :: (['2', '0', '0'] ++ []))))) "L" =
      some { title := String.mk
               (['N', 'Y', 'C'] ++ (toLit ++ (['P', 'a', 'r', 'i', 's'] ++ '$' :: (['2', '0', '0'] ++ [])))),
             link := "L", price := some ((digitsVal ['2', '0', '0'] : ℕ) : ℚ),
             currency := some "USD",
             departure := some (pyStrip (String.mk ['N', 'Y', 'C'])),
             destination := some (pyStrip (String.mk ['P', 'a', 'r', 'i', 's'])) } :=
  C1_parse_canonical ['N', 'Y', 'C'] ['P', 'a', 'r', 'i', 's'] ['2', '0', '0'] [] "L"
    (by decide) (by decide) (by decide) (by decide) (by decide) (by decide)
    (fun _ h => nomatch h) (by decide)

/-- C1 as stated is false: the title `NYC to Paris for a week $200`
matches the claimed shape with origin `NYC`, destination `Paris` and
middle text ` for a week `, yet `parse_deal` returns destination
`Paris for a week` (the greedy capture absorbs the middle text), not
`Paris`. -/
theorem C1_counterexample : ¬ C1Claim := fun h => by
  have e := h ['N', 'Y', 'C'] ['P', 'a', 'r', 'i', 's']
    [' ', 'f', 'o', 'r', ' ', 'a', ' ', 'w', 'e', 'e', 'k', ' ']
    ['2', '0', '0'] [] "L"
    ⟨by decide, by decide, by decide, by decide, by decide, by decide,
     by decide, fun _ h => nomatch h⟩
  have e2 := congrArg (fun o => Option.map TravelDeal.destination o) e
  exact absurd e2 (by decide)

/-- C2 as stated is false: a deal whose departure is present but equal to
the empty string passes the departure check (Python truthiness) even
though `""` is not a member of `departure_airports = ["JFK"]`. -/
theorem C2_counterexample : ¬ C2Claim := fun h =>
  absurd ((h { title := "t", link := "l", departure := some "" }
      { departure_airports := ["JFK"], destination_keywords := [] }).1 "" rfl)
    (by decide)

/-- C2 (amended): if the deal's departure is present and nonempty, it
passes the departure check of `filter_deals` iff it is an exact,
case-sensitive member of `prefs.departure_airports`; a deal with absent
or empty departure always passes this check. -/
theorem C2_departure_member (deal : TravelDeal) (prefs : UserPreferences) :
    (∀ dep, deal.departure = some dep → dep ≠ "" →
      (departureSkip deal prefs = false ↔ dep ∈ prefs.departure_airports)) ∧
    ((deal.departure = none ∨ deal.departure = some "") →
      departureSkip deal prefs = false) := by
  constructor
  · intro dep hdep hne
    simp [departureSkip, truthyS, hdep, hne, List.contains, List.elem_iff]
  · rintro (hd | hd) <;> simp [departureSkip, truthyS, hd]

/-- Witness for C2 (amended): `departure = "LAX"` against `["JFK"]`. -/
theorem C2_departure_member_witness :
    ("LAX" : String) ≠ "" ∧
    (departureSkip { title := "t", link := "l", departure := some "LAX" } { departure_airports := ["JFK"], destination_keywords := [] } = false ↔
      ("LAX" : String) ∈ ["JFK"]) :=
  ⟨by decide,
   (C2_departure_member { title := "t", link := "l", departure := some "LAX" }
      { departure_airports := ["JFK"], destination_keywords := [] }).1 "LAX" rfl
      (by decide)⟩

/-- C5 as stated is false: a deal whose destination is present but equal
to the empty string passes the destination check (Python truthiness) even
though no keyword of `["x"]` occurs as a substring of `""`. -/
theorem C5_counterexample : ¬ C5Claim := fun h =>
  absurd ((h { title := "t", link := "l", destination := some "" }
      { departure_airports := [], destination_keywords := ["x"] }).1 "" rfl)
    (by decide)

/-- C5 (amended): if the deal's destination is present and nonempty, it
passes the destination check of `filter_deals` iff at least one keyword of
`prefs.destination_keywords` occurs as a case-insensitive substring of it;
a deal with absent or empty destination always passes this check. -/
theorem C5_destination_keyword (deal : TravelDeal) (prefs : UserPreferences) :
    (∀ dest, deal.destination = some dest → dest ≠ "" →
      (destinationSkip deal prefs = false ↔
        ∃ kw ∈ prefs.destination_keywords,
          strContains (pyLower dest) (pyLower kw) = true)) ∧
    ((deal.destination = none ∨ deal.destination = some "") →
      destinationSkip deal prefs = false) := by
  constructor
  · intro dest hdest hne
    simp [destinationSkip, truthyS, hdest, hne, List.any_eq_true]
  · rintro (hd | hd) <;> simp [destinationSkip, truthyS, hd]

/-- Witness for C5 (amended): `destination = "Paris, France"` against the
keyword `"Paris"`. -/
theorem C5_destination_keyword_witness :
    ("Paris, France" : String) ≠ "" ∧
    (destinationSkip { title := "t", link := "l", destination := some "Paris, France" } { departure_airports := [], destination_keywords := ["Paris"] } = false ↔
      ∃ kw ∈ ["Paris"], strContains (pyLower "Paris, France") (pyLower kw) = true) :=
  ⟨by decide,
   (C5_destination_keyword { title := "t", link := "l", destination := some "Paris, France" } { departure_airports := [], destination_keywords := ["Paris"] }).1 "Paris, France" rfl (by decide)⟩

/-- C6: with a positive `max_price` set, a deal with a set price passes
the price check of `filter_deals` iff its price is at most `max_price`;
a deal with absent price always passes this check. -/
theorem C6_price_bound (deal : TravelDeal) (prefs : UserPreferences) (m : ℚ)
    (hm : prefs.max_price = some m) (hpos : 0 < m) :
    (∀ p, deal.price = some p → (priceSkip deal prefs = false ↔ p ≤ m)) ∧
    (deal.price = none → priceSkip deal prefs = false) := by
  constructor
  · intro p hp
    by_cases hp0 : p = 0
    · subst hp0
      simp [priceSkip, truthyQ, hp, hm, le_of_lt hpos]
    · simp [priceSkip, truthyQ, hp, hm, hp0, hpos.ne', not_lt]
  · intro hp
    simp [priceSkip, truthyQ, hp]

/-- Witness for C6: price 450 against maximum 300 (excluded). -/
theorem C6_price_bound_witness :
    ({ departure_airports := [], destination_keywords := [], max_price := some 300 } : UserPreferences).max_price = some 300 ∧
    (0 : ℚ) < 300 ∧
    (priceSkip { title := "t", link := "l", price := some 450 } { departure_airports := [], destination_keywords := [], max_price := some 300 } = false ↔
      (450 : ℚ) ≤ 300) :=
  ⟨rfl, by decide,
   (C6_price_bound { title := "t", link := "l", price := some 450 } { departure_airports := [], destination_keywords := [], max_price := some 300 } 300 rfl (by decide)).1 450 rfl⟩

/-- C9: a deal whose departure is present but empty always passes the
departure check of `filter_deals`, whatever the preferences; and such a
deal is producible by `parse_deal` from the title `"  to Paris $200"`,
whose origin segment is all whitespace. -/
theorem C9_empty_departure (prefs : UserPreferences) (link : String)
    (deal : TravelDeal) (h : deal.departure = some "") :
    departureSkip deal prefs = false ∧
    (parse_deal (String.mk [' ', ' ', 't', 'o', ' ', 'P', 'a', 'r', 'i', 's',
        ' ', '$', '2', '0', '0']) link).map TravelDeal.departure =
      some (some "") := by
  constructor
  · simp [departureSkip, truthyS, h]
  · have hs : reSearch dealPattern (String.mk [' ', ' ', 't', 'o', ' ', 'P',
        'a', 'r', 'i', 's', ' ', '$', '2', '0', '0']).data =
        some [[' '], [' '], ['t'], ['o'], [' '], ['P', 'a', 'r', 'i', 's', ' '],
          [], ['$'], ['2', '0', '0']] := by decide
    unfold parse_deal
    rw [hs]
    rfl

/-- Witness for C9 at `departure_airports = ["JFK"]`. -/
theorem C9_empty_departure_witness :
    ({ title := "t", link := "l", departure := some "" } : TravelDeal).departure = some "" ∧
    departureSkip { title := "t", link := "l", departure := some "" } { departure_airports := ["JFK"], destination_keywords := [] } = false ∧
    (parse_deal (String.mk [' ', ' ', 't', 'o', ' ', 'P', 'a', 'r', 'i', 's',
        ' ', '$', '2', '0', '0']) "L").map TravelDeal.departure = some (some "") :=
  ⟨rfl,
   (C9_empty_departure { departure_airports := ["JFK"], destination_keywords := [] } "L" { title := "t", link := "l", departure := some "" } rfl).1,
   (C9_empty_departure { departure_airports := ["JFK"], destination_keywords := [] } "L" { title := "t", link := "l", departure := some "" } rfl).2⟩

/-- C10: with `max_price` set to exactly 0 the price check of
`filter_deals` passes for every deal (a zero maximum is treated as unset
by Python truthiness), so no deal is excluded on price. -/
theorem C10_zero_max_price (prefs : UserPreferences) (deal : TravelDeal)
    (h : prefs.max_price = some 0) : priceSkip deal prefs = false := by
  simp [priceSkip, truthyQ, h]

/-- Witness for C10: even a deal priced 450 passes when `max_price = 0`. -/
theorem C10_zero_max_price_witness :
    ({ departure_airports := [], destination_keywords := [], max_price := some 0 } : UserPreferences).max_price = some 0 ∧
    priceSkip { title := "t", link := "l", price := some 450 } { departure_airports := [], destination_keywords := [], max_price := some 0 } = false :=
  ⟨rfl,
   C10_zero_max_price { departure_airports := [], destination_keywords := [], max_price := some 0 } { title := "t", link := "l", price := some 450 } rfl⟩

/-! ### Cache behavior -/

theorem scrape_sf_hit (now : ℚ) (f : Except String (List (String × String)))
    (c : Cache) (h : now - c.secret_flying.timestamp < CACHE_TTL) :
    scrape_secret_flying now f c = (c.secret_flying.data, c) := by
  unfold scrape_secret_flying
  rw [if_pos h]

theorem scrape_tfd_hit (now : ℚ) (f : Except String (List (String × String)))
    (c : Cache) (h : now - c.the_flight_deal.timestamp < CACHE_TTL) :
    scrape_the_flight_deal now f c = (c.the_flight_deal.data, c) := by
  unfold scrape_the_flight_deal
  rw [if_pos h]

theorem scrape_sf_refresh (now : ℚ) (entries : List (String × String))
    (c : Cache) (h : ¬ now - c.secret_flying.timestamp < CACHE_TTL) :
    scrape_secret_flying now (.ok entries) c =
      (parseEntries entries,
        { c with secret_flying := ⟨now, parseEntries entries⟩ }) := by
  unfold scrape_secret_flying
  rw [if_neg h]

theorem scrape_tfd_refresh (now : ℚ) (entries : List (String × String))
    (c : Cache) (h : ¬ now - c.the_flight_deal.timestamp < CACHE_TTL) :
    scrape_the_flight_deal now (.ok entries) c =
      (parseEntries entries,
        { c with the_flight_deal := ⟨now, parseEntries entries⟩ }) := by
  unfold scrape_the_flight_deal
  rw [if_neg h]

theorem ttl_pos : (0 : ℚ) < CACHE_TTL := by decide

/-- C3: for both sources, when the TTL has elapsed and the fetch fails,
the call returns the empty list and the whole cache state — in particular
the source's timestamp and data — is exactly what it was before the call
(the stale data is not served). -/
theorem C3_fail_closed (now : ℚ) (c : Cache) (err : String) :
    (CACHE_TTL ≤ now - c.secret_flying.timestamp →
      scrape_secret_flying now (.error err) c = ([], c)) ∧
    (CACHE_TTL ≤ now - c.the_flight_deal.timestamp →
      scrape_the_flight_deal now (.error err) c = ([], c)) := by
  constructor
  · intro h
    unfold scrape_secret_flying
    rw [if_neg (not_lt.mpr h)]
  · intro h
    unfold scrape_the_flight_deal
    rw [if_neg (not_lt.mpr h)]

/-- Witness for C3 at time 300 over the initial cache. -/
theorem C3_fail_closed_witness :
    CACHE_TTL ≤ (300 : ℚ) - cacheInit.secret_flying.timestamp ∧
    CACHE_TTL ≤ (300 : ℚ) - cacheInit.the_flight_deal.timestamp ∧
    scrape_secret_flying 300 (.error "boom") cacheInit = ([], cacheInit) ∧
    scrape_the_flight_deal 300 (.error "boom") cacheInit = ([], cacheInit) :=
  ⟨by simp only [cacheInit, sub_zero, CACHE_TTL]; decide,
   by simp only [cacheInit, sub_zero, CACHE_TTL]; decide,
   (C3_fail_closed 300 cacheInit "boom").1
     (by simp only [cacheInit, sub_zero, CACHE_TTL]; decide),
   (C3_fail_closed 300 cacheInit "boom").2
     (by simp only [cacheInit, sub_zero, CACHE_TTL]; decide)⟩

/-- C4: for both sources, a call within the TTL returns the cached data
with the whole cache unmodified, for any fetch outcome (so no fetch is
consulted); consequently a second call at the same time after any first
call with a successful fetch is a pure cache hit: it returns exactly the
first call's result and state, again for any fetch outcome. -/
theorem C4_cache_hit (now : ℚ) (c : Cache)
    (f f' : Except String (List (String × String)))
    (entries : List (String × String)) :
    (now - c.secret_flying.timestamp < CACHE_TTL →
      scrape_secret_flying now f c = (c.secret_flying.data, c)) ∧
    (now - c.the_flight_deal.timestamp < CACHE_TTL →
      scrape_the_flight_deal now f c = (c.the_flight_deal.data, c)) ∧
    scrape_secret_flying now f' (scrape_secret_flying now (.ok entries) c).2 =
      ((scrape_secret_flying now (.ok entries) c).1,
        (scrape_secret_flying now (.ok entries) c).2) ∧
    scrape_the_flight_deal now f' (scrape_the_flight_deal now (.ok entries) c).2 =
      ((scrape_the_flight_deal now (.ok entries) c).1,
        (scrape_the_flight_deal now (.ok entries) c).2) := by
  refine ⟨scrape_sf_hit now f c, scrape_tfd_hit now f c, ?_, ?_⟩
  · by_cases h : now - c.secret_flying.timestamp < CACHE_TTL
    · rw [scrape_sf_hit now (.ok entries) c h]
      exact scrape_sf_hit now f' c h
    · rw [scrape_sf_refresh now entries c h]
      refine scrape_sf_hit now f' _ ?_
      show now - now < CACHE_TTL
      rw [sub_self]
      exact ttl_pos
  · by_cases h : now - c.the_flight_deal.timestamp < CACHE_TTL
    · rw [scrape_tfd_hit now (.ok entries) c h]
      exact scrape_tfd_hit now f' c h
    · rw [scrape_tfd_refresh now entries c h]
      refine scrape_tfd_hit now f' _ ?_
      show now - now < CACHE_TTL
      rw [sub_self]
      exact ttl_pos

/-- Witness for C4: a hit on the initial cache at time 0, and a second
call that no longer consults its (failing) fetch. -/
theorem C4_cache_hit_witness :
    (0 : ℚ) - cacheInit.secret_flying.timestamp < CACHE_TTL ∧
    (0 : ℚ) - cacheInit.the_flight_deal.timestamp < CACHE_TTL ∧
    scrape_secret_flying 0 (.error "down") cacheInit =
      (cacheInit.secret_flying.data, cacheInit) ∧
    scrape_secret_flying 0 (.error "down")
        (scrape_secret_flying 0 (.ok [("A to B $9", "u")]) cacheInit).2 =
      ((scrape_secret_flying 0 (.ok [("A to B $9", "u")]) cacheInit).1,
        (scrape_secret_flying 0 (.ok [("A to B $9", "u")]) cacheInit).2) :=
  ⟨by simp only [cacheInit, sub_zero, CACHE_TTL]; decide,
   by simp only [cacheInit, sub_zero, CACHE_TTL]; decide,
   (C4_cache_hit 0 cacheInit (.error "down") (.error "down") [("A to B $9", "u")]).1
     (by simp only [cacheInit, sub_zero, CACHE_TTL]; decide),
   (C4_cache_hit 0 cacheInit (.error "down") (.error "down") [("A to B $9", "u")]).2.2.1⟩

/-- C7: `parse_deal` returns `None` on any title the regex search
rejects, and the per-entry loop of the scrape functions then drops
exactly that entry, keeping all the other entries in order. -/
theorem C7_parse_total (t l : String) (pre post : List (String × String))
    (h : reSearch dealPattern t.data = none) :
    parse_deal t l = none ∧
    parseEntries (pre ++ (t, l) :: post) =
      parseEntries pre ++ parseEntries post := by
  have hp : parse_deal t l = none := by
    unfold parse_deal
    rw [h]
  exact ⟨hp, by simp [parseEntries, List.filterMap_append, List.filterMap_cons, hp]⟩

/-- Witness for C7: the unparseable title `hello world` is dropped from
the middle of a batch. -/
theorem C7_parse_total_witness :
    reSearch dealPattern ("hello world" : String).data = none ∧
    parse_deal "hello world" "u" = none ∧
    parseEntries ([("Rome to Oslo $99", "a")] ++ ("hello world", "u") :: [("NYC to Lima $120", "b")]) =
      parseEntries [("Rome to Oslo $99", "a")] ++ parseEntries [("NYC to Lima $120", "b")] :=
  ⟨by decide,
   (C7_parse_total "hello world" "u" [("Rome to Oslo $99", "a")] [("NYC to Lima $120", "b")] (by decide)).1,
   (C7_parse_total "hello world" "u" [("Rome to Oslo $99", "a")] [("NYC to Lima $120", "b")] (by decide)).2⟩

/-- C8: the aggregation step of `find_deals` is exactly the concatenation
of the secret_flying result with the the_flight_deal result, in that
order; occurrence counts add up (no deduplication), and a deal present in
both per-source results occurs at least twice in the aggregate. -/
theorem C8_aggregate_concat (now : ℚ)
    (fSF fTFD : Except String (List (String × String))) (c : Cache) :
    (aggregate now fSF fTFD c).1 =
      (scrape_secret_flying now fSF c).1 ++
        (scrape_the_flight_deal now fTFD (scrape_secret_flying now fSF c).2).1 ∧
    (∀ d : TravelDeal, (aggregate now fSF fTFD c).1.count d =
      (scrape_secret_flying now fSF c).1.count d +
        (scrape_the_flight_deal now fTFD (scrape_secret_flying now fSF c).2).1.count d) ∧
    (∀ d : TravelDeal, d ∈ (scrape_secret_flying now fSF c).1 →
      d ∈ (scrape_the_flight_deal now fTFD (scrape_secret_flying now fSF c).2).1 →
      2 ≤ (aggregate now fSF fTFD c).1.count d) := by
  refine ⟨rfl, fun d => List.count_append d _ _, fun d h1 h2 => ?_⟩
  have e : (aggregate now fSF fTFD c).1 =
      (scrape_secret_flying now fSF c).1 ++
        (scrape_the_flight_deal now fTFD (scrape_secret_flying now fSF c).2).1 := rfl
  rw [e, List.count_append]
  have g1 := List.one_le_count_iff.mpr h1
  have g2 := List.one_le_count_iff.mpr h2
  omega

/-- Witness for C8: the same deal cached for both sources appears twice
in the aggregate. -/
theorem C8_aggregate_concat_witness :
    sampleDeal ∈ (scrape_secret_flying 0 (.ok []) sampleCache).1 ∧
    sampleDeal ∈ (scrape_the_flight_deal 0 (.ok [])
      (scrape_secret_flying 0 (.ok []) sampleCache).2).1 ∧
    2 ≤ (aggregate 0 (.ok []) (.ok []) sampleCache).1.count sampleDeal := by
  have hc1 : (0 : ℚ) - sampleCache.secret_flying.timestamp < CACHE_TTL := by
    simp only [sampleCache, sub_zero, CACHE_TTL]
    decide
  have hc2 : (0 : ℚ) - sampleCache.the_flight_deal.timestamp < CACHE_TTL := by
    simp only [sampleCache, sub_zero, CACHE_TTL]
    decide
  have e1 : scrape_secret_flying 0 (.ok []) sampleCache =
      (sampleCache.secret_flying.data, sampleCache) :=
    scrape_sf_hit 0 (.ok []) sampleCache hc1
  have h1 : sampleDeal ∈ (scrape_secret_flying 0 (.ok []) sampleCache).1 := by
    rw [e1]
    decide
  have h2 : sampleDeal ∈ (scrape_the_flight_deal 0 (.ok [])
      (scrape_secret_flying 0 (.ok []) sampleCache).2).1 := by
    rw [e1]
    show sampleDeal ∈ (scrape_the_flight_deal 0 (.ok []) sampleCache).1
    rw [scrape_tfd_hit 0 (.ok []) sampleCache hc2]
    decide
  exact ⟨h1, h2,
    (C8_aggregate_concat 0 (.ok []) (.ok []) sampleCache).2.2 sampleDeal h1 h2⟩
